import Mathlib

/-!
Shallow embedding of the acpilight brightness-control engine.

Source files modelled:
  * `acpilight/brightness.py`  — `Controller`, `generate_brightness_steps`,
    `sweep_brightness`, `get_controllers`, `make_controller`
  * `acpilight/acpilight.py`   — `normalize`, `_make_controller`,
    `_handle_other_actions` (step derivation and policy gate)
  * `acpilight/constants.py`   — path and file-name constants
  * `acpilight/utils.py`       — `normalize`

Modelling conventions:
  * Python `int` is `ℤ`; Python `float` is modelled by exact rational
    arithmetic on `ℚ` (the engine's arithmetic is small-scale division and
    interpolation; rounding of binary floating point is not modelled).
  * A Python file object is `PyFile`: a character content plus a position.
    `write` overwrites in place from the current position without
    truncating (Python file/`StringIO` semantics); `read` returns the
    suffix from the current position; `seek(0)` resets the position.
  * Exceptions are modelled with `Except`: `ValueError` from `int(...)`,
    `ZeroDivisionError` from division by zero, `OSError` from `os.listdir`
    on an absent directory or from an unreadable handle.
  * `os.listdir` is an explicit environment parameter
    `String → Option (List String)`; `none` means the directory is absent
    (Python raises), `some names` is its listing in traversal order.
-/

deriving instance DecidableEq for Except

namespace Acpilight

/-- Exception kinds: `PyError` covers the Python exception kinds reached by the modelled code. -/
inductive PyError
  | ioError
  | valueError
  | zeroDivisionError
deriving DecidableEq, Repr

/-- A Python file object: character content plus a current position.
Mirrors `io` semantics: writing overwrites from the position without
truncating the tail, reading returns everything from the position on. -/
structure PyFile where
  content : List Char
  pos : ℕ
deriving DecidableEq, Repr

/-- Python `f.write(s)`: overwrite `s` at the current position, keeping any
tail of the old content that extends past the written region; positions past
the end are padded with NUL characters (as `io.StringIO` does). -/
def fileWrite (s : List Char) (f : PyFile) : PyFile :=
  let padded := f.content ++ List.replicate (f.pos - f.content.length) (Char.ofNat 0)
  { content := padded.take f.pos ++ s ++ padded.drop (f.pos + s.length)
    pos := f.pos + s.length }

/-- Python `f.read()`: the content from the current position to the end,
leaving the position at end-of-file. -/
def fileReadAll (f : PyFile) : List Char × PyFile :=
  (f.content.drop f.pos, { f with pos := max f.pos f.content.length })

/-- Python `f.seek(0)`. -/
def fileSeekStart (f : PyFile) : PyFile :=
  { f with pos := 0 }

/-- Decimal digit to its character, `0 ↦ '0'`, …, `9 ↦ '9'`. -/
def digitChar (d : ℕ) : Char := Char.ofNat (48 + d)

/-- Numeric value of a decimal digit character. -/
def digitVal (c : Char) : ℕ := c.toNat - 48

/-- Is `c` one of `'0'`–`'9'`? -/
def isDigitChar (c : Char) : Bool := 48 ≤ c.toNat && c.toNat ≤ 57

/-- Python `str.isspace`-style whitespace stripped by `int(...)`. -/
def isPySpace (c : Char) : Bool :=
  c = ' ' || c = '\t' || c = '\n' || c = '\r' || c = '\x0b' || c = '\x0c'

/-- Fuelled decimal rendering of a natural number (most significant digit
first); with fuel `> n` it renders every `n`, including `0` as `"0"`.
Models the digit part of Python `str(int)`. -/
def natRender : ℕ → ℕ → List Char
  | 0, _ => []
  | f + 1, n =>
    if n < 10 then [digitChar n] else natRender f (n / 10) ++ [digitChar (n % 10)]

/-- Python `str(n)` for an integer `n`: canonical decimal text, with a
leading `'-'` for negative values. -/
def intRender (n : ℤ) : List Char :=
  if n < 0 then '-' :: natRender (n.natAbs + 1) n.natAbs
  else natRender (n.toNat + 1) n.toNat

/-- Strip Python-`int` whitespace from both ends. -/
def stripChars (s : List Char) : List Char :=
  ((s.dropWhile isPySpace).reverse.dropWhile isPySpace).reverse

/-- Parse a non-empty all-digit string as a natural number; `none` otherwise. -/
def parseDigits (s : List Char) : Option ℕ :=
  if s = [] then none
  else if s.all isDigitChar then
    some (s.foldl (fun a c => 10 * a + digitVal c) 0)
  else none

/-- Python `int(s)` on text: strip surrounding whitespace, allow one leading
sign, then a non-empty run of decimal digits; `none` models the
`ValueError` raised on anything else.  (Python's underscore digit
separators are not modelled; no device text uses them.) -/
def pyInt (s : List Char) : Option ℤ :=
  match stripChars s with
  | [] => none
  | c :: rest =>
    if c = '-' then (parseDigits rest).map (fun n : ℕ => -(n : ℤ))
    else if c = '+' then (parseDigits rest).map (fun n : ℕ => (n : ℤ))
    else (parseDigits (c :: rest)).map (fun n : ℕ => (n : ℤ))

/-- Python `math.trunc` on an exact rational: truncation toward zero,
computed as the T-division of numerator by denominator
(`acpilight` imports `trunc` from `math`). -/
def pytrunc (q : ℚ) : ℤ := Int.tdiv q.num q.den

/-- Source `utils.normalize` / `acpilight.normalize`:
`max(min(value, maximum_value), minimum_value)`. -/
def normalize {α : Type} [LinearOrder α] (value minimum_value maximum_value : α) : α :=
  max (min value maximum_value) minimum_value

/-- Source `constants.CONTROLLERS_PATH`. -/
def CONTROLLERS_PATH : List String := ["/sys/class/backlight", "/sys/class/leds"]

/-- Source `constants.MAXIMUM_BRIGHTNESS_FILE`. -/
def MAXIMUM_BRIGHTNESS_FILE : String := "max_brightness"

/-- Source `constants.BRIGHTNESS_FILE`. -/
def BRIGHTNESS_FILE : String := "brightness"

/-- Source `constants.MINIMUM_BRIGHTNESS_VALUE`. -/
def MINIMUM_BRIGHTNESS_VALUE : ℤ := 0

/-- Python `os.path.join(p, n)` for the absolute, slash-free components used here. -/
def pathJoin (p n : String) : String := p ++ "/" ++ n

/-- Source `brightness.Controller`: the held brightness file handle and the maximum
raw value read once at construction (`self._max_brightness`). -/
structure Controller where
  brightness_file : PyFile
  max_brightness : ℤ
deriving DecidableEq, Repr

/-- Source `Controller.__init__(brightness_file, maximum_brightness_file)`:
stores the brightness handle and parses `maximum_brightness_file.read()`
with `int(...)`.  The read of the maximum handle is passed in as an
`Except` value: `Except.error e` models an unreadable handle, `Except.ok s`
a successful read of text `s`.  The brightness handle is stored untouched. -/
def Controller.init (brightness_file : PyFile)
    (maximum_brightness_read : Except PyError (List Char)) : Except PyError Controller := do
  let s ← maximum_brightness_read
  match pyInt s with
  | some n => pure ⟨brightness_file, n⟩
  | none => throw PyError.valueError

/-- Source `Controller.raw_brightness` getter:
`int(self._brightness_file.read())`, then `seek(0)`.  A parse failure
raises `ValueError` (before the seek, but the handle state is then lost to
the exception). -/
def Controller.raw_brightness_get (c : Controller) : Except PyError (ℤ × Controller) :=
  let r := fileReadAll c.brightness_file
  match pyInt r.1 with
  | some n => Except.ok (n, { c with brightness_file := fileSeekStart r.2 })
  | none => Except.error PyError.valueError

/-- Source `Controller.raw_brightness` setter: normalize the new value into
`[MINIMUM_BRIGHTNESS_VALUE, self._max_brightness]`, write its decimal text,
then `seek(0)`. -/
def Controller.raw_brightness_set (c : Controller) (new_value : ℤ) : Controller :=
  let nv := normalize new_value MINIMUM_BRIGHTNESS_VALUE c.max_brightness
  { c with brightness_file := fileSeekStart (fileWrite (intRender nv) c.brightness_file) }

/-- Source `Controller.brightness` getter:
`self.raw_brightness / self._max_brightness * 100`.  Python raises
`ZeroDivisionError` on true division by zero; the explicit zero test models
that (on `ℚ` division is otherwise total). -/
def Controller.brightness_get (c : Controller) : Except PyError (ℚ × Controller) := do
  let r ← c.raw_brightness_get
  if c.max_brightness = 0 then throw PyError.zeroDivisionError
  else pure ((r.1 : ℚ) / (c.max_brightness : ℚ) * 100, r.2)

/-- Source `Controller.brightness` setter:
`self.raw_brightness = trunc(percent * self._max_brightness / 100)`. -/
def Controller.brightness_set (c : Controller) (percent : ℚ) : Controller :=
  c.raw_brightness_set (pytrunc (percent * (c.max_brightness : ℚ) / 100))

/-- One observable action of the sweep engine, at the percentage level:
a write of a percentage to the controller (`controller.brightness = value`)
or a suspension (`time.sleep(seconds)`). -/
inductive SweepEvent
  | write (percent : ℚ)
  | sleep (seconds : ℚ)
deriving DecidableEq, Repr

/-- Python `range(a, b)` as a list of integers. -/
def pyRange (a b : ℤ) : List ℤ :=
  (List.range (b - a).toNat).map (fun i => a + i)

/-- Source `brightness.generate_brightness_steps(controller, target, steps)`:
the values yielded by the generator, in order.  The generator reads
`controller.brightness` exactly once, before its loop; that single captured
reading is the `current` parameter here (no later value depends on the
device state, which is why the list is a pure function of `current`). -/
def generate_brightness_steps (current target : ℚ) (steps : ℤ) : List ℚ :=
  ((pyRange 1 steps).map fun step : ℤ =>
      current + (target - current) * (step : ℚ) / (steps : ℚ))
    ++ [target]

/-- Source `brightness.sweep_brightness(controller, target, steps, delay)`:
`sleep = (delay / 1000.) / steps`, then for each generated value, assign
`controller.brightness` and `time.sleep(sleep)`.  Sleep durations are in
seconds, as passed to `time.sleep`.  (With `steps = 0` Python would raise
`ZeroDivisionError`; the caller's policy gate never invokes the sweep with
`steps ≤ 1`, and every theorem below assumes `2 ≤ steps`.) -/
def sweep_brightness (current target : ℚ) (steps : ℤ) (delay : ℚ) : List SweepEvent :=
  let sleep := delay / 1000 / (steps : ℚ)
  (generate_brightness_steps current target steps).flatMap
    (fun value => [SweepEvent.write value, SweepEvent.sleep sleep])

/-- The policy gate of `acpilight._handle_other_actions`, after `target`
has been normalized into `[0, 100]` and `arguments.ctrl.brightness` has
been read as `current`:

    if arguments.ctrl.brightness == target: pass
    elif arguments.steps <= 1 or arguments.time < 1:
        arguments.ctrl.brightness = target
    else:
        sweep_brightness(arguments.ctrl, target, arguments.steps, arguments.time)
-/
def apply_brightness_action (current target : ℚ) (steps time : ℤ) : List SweepEvent :=
  if current = target then []
  else if steps ≤ 1 ∨ time < 1 then [SweepEvent.write target]
  else sweep_brightness current target steps (time : ℚ)

/-- The step-count derivation of `acpilight._handle_other_actions`:

    if arguments.fps:
        arguments.steps = int((arguments.fps / 1000) * arguments.time)

`if arguments.fps` is Python truthiness: any non-zero `fps` replaces the
explicit step count; `int(...)` truncates toward zero. -/
def derive_steps (fps time steps : ℤ) : ℤ :=
  if fps ≠ 0 then pytrunc ((fps : ℚ) / 1000 * (time : ℚ)) else steps

/-- Ordered-dict insertion (`d[name] = path`): an existing key keeps its
position and gets the new value, a new key is appended. -/
def odInsert (m : List (String × String)) (k v : String) : List (String × String) :=
  if m.any (fun e => e.1 = k) then m.map (fun e => if e.1 = k then (k, v) else e)
  else m ++ [(k, v)]

/-- The values of an ordered dict, in insertion order (`d.values()`). -/
def odValues (m : List (String × String)) : List String := m.map Prod.snd

/-- Python `d.get(key, default)`: `None` is never a key, so a `none` key always
yields the default. -/
def odGet (m : List (String × String)) (key : Option String) (dflt : String) : String :=
  match key with
  | none => dflt
  | some n => ((m.find? (fun e => e.1 = n)).map Prod.snd).getD dflt

/-- The loop of `get_controllers`, over a remaining list of base paths with
the ordered dict accumulated so far:

    for path in paths:
        for name in os.listdir(path):
            controllers_path_by_controllers_name[name] = os.path.join(path, name)

`os.listdir` on an absent path raises (`Except.error PyError.ioError`). -/
def list_controller_entries (listdir : String → Option (List String)) :
    List String → List (String × String) → Except PyError (List (String × String))
  | [], acc => Except.ok acc
  | path :: rest, acc =>
    match listdir path with
    | none => Except.error PyError.ioError
    | some names =>
      list_controller_entries listdir rest
        (names.foldl (fun m name => odInsert m name (pathJoin path name)) acc)

/-- Source `brightness.get_controllers` / `acpilight.get_controllers` (identical
code): scan `CONTROLLERS_PATH` into a name → path ordered dict. -/
def get_controllers (listdir : String → Option (List String)) :
    Except PyError (List (String × String)) :=
  list_controller_entries listdir CONTROLLERS_PATH []

/-- The failure modes of `make_controller`: a raised `os.listdir` error,
the `sys.exit(1)` on an unknown controller name, and the `IndexError`
from `tuple(controllers.values())[0]` on zero controllers. -/
inductive MCError
  | ioError
  | sysExit
  | indexError
deriving DecidableEq, Repr

/-- The tail of `make_controller` past the name check:
`controller = controllers.get(controller_name, tuple(controllers.values())[0])`
(Python evaluates the default argument first, so an empty dict raises
`IndexError` before any lookup), then open the device's `max_brightness`
file for reading and its `brightness` file for `w+`.  The result pairs the
device files opened, in order, with the outcome. -/
def resolve_default (controllers : List (String × String))
    (controller_name : Option String) : List String × Except MCError String :=
  match odValues controllers with
  | [] => ([], Except.error MCError.indexError)
  | dflt :: _ =>
    let controller := odGet controllers controller_name dflt
    ([pathJoin controller MAXIMUM_BRIGHTNESS_FILE, pathJoin controller BRIGHTNESS_FILE],
      Except.ok controller)

/-- The name check of `make_controller`:
`if controller_name is not None and controller_name not in controllers.values():`
print an error and `sys.exit(1)`; note the membership test is against the
dict's *values* (the device paths), not its keys. -/
def resolve_controller (controllers : List (String × String)) :
    Option String → List String × Except MCError String
  | none => resolve_default controllers none
  | some n =>
    if n ∈ odValues controllers then resolve_default controllers (some n)
    else ([], Except.error MCError.sysExit)

/-- Source `brightness.make_controller` / `acpilight._make_controller` (identical
logic): discover controllers (propagating a raised `os.listdir` error),
check the requested name, resolve, and open the device files. -/
def make_controller (listdir : String → Option (List String))
    (controller_name : Option String) : List String × Except MCError String :=
  match get_controllers listdir with
  | Except.error _ => ([], Except.error MCError.ioError)
  | Except.ok controllers => resolve_controller controllers controller_name

/-! ### Arithmetic facts about truncation -/

theorem pytrunc_of_nonneg (q : ℚ) (h : 0 ≤ q) : pytrunc q = ⌊q⌋ := by
  unfold pytrunc
  rw [Rat.floor_def]
  exact Int.tdiv_eq_ediv (Rat.num_nonneg.mpr h) (Int.natCast_nonneg _)

theorem pytrunc_neg (q : ℚ) : pytrunc (-q) = -pytrunc q := by
  unfold pytrunc
  rw [Rat.num_neg_eq_neg_num, Rat.den_neg_eq_den, Int.neg_tdiv]

theorem pytrunc_of_nonpos (q : ℚ) (h : q ≤ 0) : pytrunc q = ⌈q⌉ := by
  have h1 : pytrunc (-q) = ⌊-q⌋ := pytrunc_of_nonneg (-q) (by linarith)
  rw [pytrunc_neg] at h1
  have h2 : pytrunc q = -⌊-q⌋ := by omega
  rw [h2, Int.floor_neg, neg_neg]

/-! ### Decimal rendering and parsing round-trip -/

theorem digitChar_toNat (d : ℕ) (h : d < 10) : (digitChar d).toNat = 48 + d := by
  interval_cases d <;> decide

theorem isDigitChar_digitChar (d : ℕ) (h : d < 10) : isDigitChar (digitChar d) = true := by
  interval_cases d <;> decide

theorem digitVal_digitChar (d : ℕ) (h : d < 10) : digitVal (digitChar d) = d := by
  interval_cases d <;> decide

theorem isPySpace_eq_false_of_digit (c : Char) (h : isDigitChar c = true) :
    isPySpace c = false := by
  simp only [isDigitChar, Bool.and_eq_true, decide_eq_true_eq] at h
  simp only [isPySpace, Bool.or_eq_false_iff, decide_eq_false_iff_not]
  refine ⟨⟨⟨⟨⟨?_, ?_⟩, ?_⟩, ?_⟩, ?_⟩, ?_⟩ <;> rintro rfl <;> exact absurd h (by decide)

theorem natRender_ne_nil (f n : ℕ) (h : n < f) : natRender f n ≠ [] := by
  cases f with
  | zero => omega
  | succ f =>
    rw [natRender]
    by_cases hn : n < 10
    · rw [if_pos hn]; simp
    · rw [if_neg hn]; simp

theorem natRender_all_digits (f n : ℕ) : (natRender f n).all isDigitChar = true := by
  induction f generalizing n with
  | zero => rfl
  | succ f ih =>
    rw [natRender]
    by_cases hn : n < 10
    · rw [if_pos hn]; simp [isDigitChar_digitChar n hn]
    · rw [if_neg hn]
      simp [List.all_append, ih, isDigitChar_digitChar (n % 10) (Nat.mod_lt n (by omega))]

theorem natRender_foldl (f n a : ℕ) (h : n < f) :
    (natRender f n).foldl (fun acc c => 10 * acc + digitVal c) a
      = a * 10 ^ (natRender f n).length + n := by
  induction f generalizing n a with
  | zero => omega
  | succ f ih =>
    rw [natRender]
    by_cases hn : n < 10
    · rw [if_pos hn]
      simp only [List.foldl_cons, List.foldl_nil, List.length_singleton]
      rw [digitVal_digitChar n hn]
      ring
    · rw [if_neg hn]
      have hd : n / 10 < f := by
        have : n / 10 < n := Nat.div_lt_self (by omega) (by norm_num)
        omega
      rw [List.foldl_append, List.length_append]
      simp only [List.foldl_cons, List.foldl_nil, List.length_singleton]
      rw [ih (n / 10) a hd, digitVal_digitChar (n % 10) (Nat.mod_lt n (by omega))]
      calc 10 * (a * 10 ^ (natRender f (n / 10)).length + n / 10) + n % 10
          = a * (10 ^ (natRender f (n / 10)).length * 10) + (10 * (n / 10) + n % 10) := by
            ring
        _ = a * 10 ^ ((natRender f (n / 10)).length + 1) + n := by
            rw [Nat.div_add_mod, pow_succ]

theorem parseDigits_natRender (n : ℕ) : parseDigits (natRender (n + 1) n) = some n := by
  unfold parseDigits
  rw [if_neg (natRender_ne_nil (n + 1) n (Nat.lt_succ_self n))]
  rw [if_pos (natRender_all_digits (n + 1) n)]
  rw [natRender_foldl (n + 1) n 0 (Nat.lt_succ_self n)]
  simp

theorem dropWhile_isPySpace_of_digits (s : List Char) (h : s.all isDigitChar = true) :
    s.dropWhile isPySpace = s := by
  cases s with
  | nil => rfl
  | cons c t =>
    have hc : isDigitChar c = true := by
      simp only [List.all_cons, Bool.and_eq_true] at h
      exact h.1
    rw [List.dropWhile_cons, isPySpace_eq_false_of_digit c hc]
    simp

theorem stripChars_of_digits (s : List Char) (h : s.all isDigitChar = true) :
    stripChars s = s := by
  unfold stripChars
  rw [dropWhile_isPySpace_of_digits s h]
  rw [dropWhile_isPySpace_of_digits s.reverse (by simpa using h)]
  exact List.reverse_reverse s

theorem pyInt_natRender (n : ℕ) : pyInt (natRender (n + 1) n) = some (n : ℤ) := by
  unfold pyInt
  rw [stripChars_of_digits _ (natRender_all_digits _ _)]
  obtain ⟨c, t, hct⟩ : ∃ c t, natRender (n + 1) n = c :: t := by
    cases hh : natRender (n + 1) n with
    | nil => exact absurd hh (natRender_ne_nil _ _ (Nat.lt_succ_self n))
    | cons c t => exact ⟨c, t, rfl⟩
  rw [hct]
  have hc : isDigitChar c = true := by
    have hall := natRender_all_digits (n + 1) n
    rw [hct] at hall
    simp only [List.all_cons, Bool.and_eq_true] at hall
    exact hall.1
  have hcm : ¬(c = '-') := by rintro rfl; exact absurd hc (by decide)
  have hcp : ¬(c = '+') := by rintro rfl; exact absurd hc (by decide)
  show (if c = '-' then Option.map (fun n : ℕ => -(n : ℤ)) (parseDigits t)
    else if c = '+' then Option.map (fun n : ℕ => (n : ℤ)) (parseDigits t)
    else Option.map (fun n : ℕ => (n : ℤ)) (parseDigits (c :: t))) = some (n : ℤ)
  rw [if_neg hcm, if_neg hcp, ← hct, parseDigits_natRender]
  rfl

theorem pyInt_intRender_of_nonneg (r : ℤ) (h : 0 ≤ r) : pyInt (intRender r) = some r := by
  unfold intRender
  rw [if_neg (by omega), pyInt_natRender]
  congr 1
  exact Int.toNat_of_nonneg h

example : pyInt ['4', '2'] = some 42 := by decide
example : pyInt ['-', '5'] = some (-5) := by decide
example : pyInt [' ', '7', '\n'] = some 7 := by decide
example : pyInt ['a'] = none := by decide
example : pyInt [] = none := by decide
example : intRender 0 = ['0'] := by decide
example : intRender 105 = ['1', '0', '5'] := by decide
example : intRender (-17) = ['-', '1', '7'] := by decide

/-! ### Shared order facts about `normalize` -/

theorem normalize_eq_self {u lo hi : ℤ} (h0 : lo ≤ u) (h1 : u ≤ hi) :
    normalize u lo hi = u := by
  unfold normalize
  omega

/-! ### C3: raw write / read round-trip -/

/-- C3 counterexample: with prior handle content `"10"` (position 0,
`maxRaw = 100`), writing raw value `5` and reading back yields `50`, not
`5`: the write overwrites in place and the stale `'0'` survives, so the
round-trip claim fails for this prior state. -/
theorem C3_counterexample :
    (Controller.raw_brightness_get
        (Controller.raw_brightness_set ⟨⟨['1', '0'], 0⟩, 100⟩ 5)).map Prod.fst
      = Except.ok 50
    ∧ (Controller.raw_brightness_get
        (Controller.raw_brightness_set ⟨⟨['1', '0'], 0⟩, 100⟩ 5)).map Prod.fst
      ≠ Except.ok 5 := by
  constructor <;> decide

/-- C3 (amended): for every raw value `r` with `0 ≤ r ≤ maxRaw` and every
prior handle state at position 0 whose content is no longer than the
decimal text of `r` (e.g. a freshly truncated handle), writing `r` through
the raw accessor and immediately reading the raw accessor back returns
exactly `r`. -/
theorem C3_raw_roundtrip (r maxRaw : ℤ) (content : List Char)
    (h0 : 0 ≤ r) (h1 : r ≤ maxRaw) (hlen : content.length ≤ (intRender r).length) :
    (Controller.raw_brightness_get
        (Controller.raw_brightness_set ⟨⟨content, 0⟩, maxRaw⟩ r)).map Prod.fst
      = Except.ok r := by
  have hnorm : normalize r MINIMUM_BRIGHTNESS_VALUE maxRaw = r := normalize_eq_self h0 h1
  have hdrop : content.drop (intRender r).length = [] := List.drop_eq_nil_of_le hlen
  have hset : Controller.raw_brightness_set ⟨⟨content, 0⟩, maxRaw⟩ r
      = ⟨⟨intRender r, 0⟩, maxRaw⟩ := by
    simp only [Controller.raw_brightness_set, fileWrite, fileSeekStart, hnorm]
    simp [hdrop]
  rw [hset]
  have hget : Controller.raw_brightness_get ⟨⟨intRender r, 0⟩, maxRaw⟩
      = Except.ok (r, ⟨⟨intRender r, 0⟩, maxRaw⟩) := by
    simp only [Controller.raw_brightness_get, fileReadAll, fileSeekStart, List.drop_zero]
    rw [pyInt_intRender_of_nonneg r h0]
  rw [hget]
  rfl

/-- C3 witness: a concrete instance of the amended round-trip
(`r = 5`, `maxRaw = 100`, empty prior content). -/
theorem C3_raw_roundtrip_witness :
    (Controller.raw_brightness_get
        (Controller.raw_brightness_set ⟨⟨[], 0⟩, 100⟩ 5)).map Prod.fst
      = Except.ok 5 :=
  C3_raw_roundtrip 5 100 [] (by decide) (by decide) (by decide)

/-! ### C4: every completed write is clamped into range -/

/-- C4: after every completed raw write — including the raw write
triggered by a percent write of any integer or rational `p` with positive
maximum — the value written to the device (as decimal text) satisfies
`0 ≤ value ≤ maxRaw`; out-of-range input is clamped to the nearer bound
(`0` below, `maxRaw` above, unchanged in range) and never rejected: both
setters are total functions. -/
theorem C4_write_clamped (c : Controller) (v : ℤ) (p : ℚ)
    (hm : 0 < c.max_brightness) :
    (∃ w : ℤ, Controller.raw_brightness_set c v
          = ⟨fileSeekStart (fileWrite (intRender w) c.brightness_file), c.max_brightness⟩
        ∧ 0 ≤ w ∧ w ≤ c.max_brightness
        ∧ (v < 0 → w = 0)
        ∧ (c.max_brightness < v → w = c.max_brightness)
        ∧ (0 ≤ v → v ≤ c.max_brightness → w = v))
    ∧ ∃ w : ℤ, Controller.brightness_set c p
          = ⟨fileSeekStart (fileWrite (intRender w) c.brightness_file), c.max_brightness⟩
        ∧ 0 ≤ w ∧ w ≤ c.max_brightness := by
  refine ⟨⟨normalize v MINIMUM_BRIGHTNESS_VALUE c.max_brightness,
      rfl, ?_, ?_, ?_, ?_, ?_⟩,
    ⟨normalize (pytrunc (p * (c.max_brightness : ℚ) / 100))
        MINIMUM_BRIGHTNESS_VALUE c.max_brightness, rfl, ?_, ?_⟩⟩
    <;> unfold normalize MINIMUM_BRIGHTNESS_VALUE <;> intros <;> omega

/-- C4 witness: concrete controller with `maxRaw = 10`, raw write `15`,
percent write `-5`. -/
theorem C4_write_clamped_witness :
    (∃ w : ℤ, Controller.raw_brightness_set ⟨⟨[], 0⟩, 10⟩ 15
          = ⟨fileSeekStart (fileWrite (intRender w) ⟨[], 0⟩), 10⟩
        ∧ 0 ≤ w ∧ w ≤ 10
        ∧ ((15 : ℤ) < 0 → w = 0)
        ∧ ((10 : ℤ) < 15 → w = 10)
        ∧ ((0 : ℤ) ≤ 15 → (15 : ℤ) ≤ 10 → w = 15))
    ∧ ∃ w : ℤ, Controller.brightness_set ⟨⟨[], 0⟩, 10⟩ (-5)
          = ⟨fileSeekStart (fileWrite (intRender w) ⟨[], 0⟩), 10⟩
        ∧ 0 ≤ w ∧ w ≤ 10 :=
  C4_write_clamped ⟨⟨[], 0⟩, 10⟩ 15 (-5) (by decide)

/-! ### C6: controller construction errors -/

/-- C6 counterexample: the maximum-value text `"-5"` is a negative
integer, which the claim says must fail with a format error; but Python
`int` parses it and construction succeeds with maximum `-5`. -/
theorem C6_counterexample :
    pyInt ['-', '5'] = some (-5)
    ∧ Controller.init ⟨[], 0⟩ (Except.ok ['-', '5']) = Except.ok ⟨⟨[], 0⟩, -5⟩ := by
  constructor <;> decide

/-- C6 (amended): construction fails with a format error exactly when the
maximum-value text does not parse as an optionally signed decimal integer
(negative integer texts are accepted, yielding a negative maximum), and an
I/O error reading the maximum source propagates unchanged. -/
theorem C6_construction (bf : PyFile) (mread : Except PyError (List Char))
    (e : PyError) (s : List Char) (n : ℤ) :
    (mread = Except.error e → Controller.init bf mread = Except.error e)
    ∧ (mread = Except.ok s → pyInt s = none →
        Controller.init bf mread = Except.error PyError.valueError)
    ∧ (mread = Except.ok s → pyInt s = some n →
        Controller.init bf mread = Except.ok ⟨bf, n⟩) := by
  refine ⟨?_, ?_, ?_⟩
  · rintro rfl
    rfl
  · rintro rfl hp
    show (match pyInt s with
      | some n => pure ⟨bf, n⟩
      | none => throw PyError.valueError : Except PyError Controller)
        = Except.error PyError.valueError
    rw [hp]
    rfl
  · rintro rfl hp
    show (match pyInt s with
      | some n => pure ⟨bf, n⟩
      | none => throw PyError.valueError : Except PyError Controller)
        = Except.ok ⟨bf, n⟩
    rw [hp]
    rfl

/-- C6 witness: an I/O error propagates; `"x"` is a format error; `"7"`
constructs with maximum `7`. -/
theorem C6_construction_witness :
    Controller.init ⟨[], 0⟩ (Except.error PyError.ioError) = Except.error PyError.ioError
    ∧ Controller.init ⟨[], 0⟩ (Except.ok ['x']) = Except.error PyError.valueError
    ∧ Controller.init ⟨[], 0⟩ (Except.ok ['7']) = Except.ok ⟨⟨[], 0⟩, 7⟩ :=
  ⟨(C6_construction ⟨[], 0⟩ _ PyError.ioError [] 0).1 rfl,
   (C6_construction ⟨[], 0⟩ _ PyError.ioError ['x'] 0).2.1 rfl (by decide),
   (C6_construction ⟨[], 0⟩ _ PyError.ioError ['7'] 7).2.2 rfl (by decide)⟩

/-! ### C9: the percent write converts by truncation toward zero -/

/-- C9: a percent write `brightness = p` performs a raw write of
`trunc(p * maxRaw / 100)`, where `trunc` is truncation toward zero:
it agrees with the floor on non-negative arguments and with the ceiling on
non-positive ones (so it is not rounding to nearest). -/
theorem C9_percent_to_raw (c : Controller) (p : ℚ) :
    Controller.brightness_set c p
      = Controller.raw_brightness_set c (pytrunc (p * (c.max_brightness : ℚ) / 100))
    ∧ (0 ≤ p * (c.max_brightness : ℚ) / 100 →
        pytrunc (p * (c.max_brightness : ℚ) / 100)
          = ⌊p * (c.max_brightness : ℚ) / 100⌋)
    ∧ (p * (c.max_brightness : ℚ) / 100 ≤ 0 →
        pytrunc (p * (c.max_brightness : ℚ) / 100)
          = ⌈p * (c.max_brightness : ℚ) / 100⌉) :=
  ⟨rfl, fun h => pytrunc_of_nonneg _ h, fun h => pytrunc_of_nonpos _ h⟩

/-- C9 witness: `maxRaw = 100`, `p = 5.5`: the converted raw value is
`⌊5.5⌋ = 5` (truncation, not rounding to `6`). -/
theorem C9_percent_to_raw_witness :
    pytrunc ((11 / 2 : ℚ) * ((100 : ℤ) : ℚ) / 100)
      = ⌊(11 / 2 : ℚ) * ((100 : ℤ) : ℚ) / 100⌋
    ∧ ⌊(11 / 2 : ℚ) * ((100 : ℤ) : ℚ) / 100⌋ = 5 :=
  ⟨(C9_percent_to_raw ⟨⟨[], 0⟩, 100⟩ (11 / 2)).2.1 (by norm_num),
   by norm_num⟩

/-! ### C10: a zero maximum is accepted and poisons the percentage read -/

/-- C10: construction accepts the maximum-value text `"0"`, and for a
controller with maximum `0`, every read of the brightness percentage whose
underlying raw read succeeds raises `ZeroDivisionError`: the division in
the percentage getter is unguarded. -/
theorem C10_zero_maximum (content : List Char) (pos : ℕ) (r : ℤ)
    (h : pyInt (content.drop pos) = some r) :
    Controller.init ⟨content, pos⟩ (Except.ok ['0']) = Except.ok ⟨⟨content, pos⟩, 0⟩
    ∧ Controller.brightness_get ⟨⟨content, pos⟩, 0⟩
        = Except.error PyError.zeroDivisionError := by
  constructor
  · show (match pyInt ['0'] with
      | some n => pure ⟨⟨content, pos⟩, n⟩
      | none => throw PyError.valueError : Except PyError Controller)
        = Except.ok ⟨⟨content, pos⟩, 0⟩
    rw [show pyInt ['0'] = some 0 by decide]
    rfl
  · unfold Controller.brightness_get Controller.raw_brightness_get fileReadAll
    simp only [h]
    rfl

/-- C10 witness: raw content `"42"`, position 0. -/
theorem C10_zero_maximum_witness :
    Controller.init ⟨['4', '2'], 0⟩ (Except.ok ['0'])
      = Except.ok ⟨⟨['4', '2'], 0⟩, 0⟩
    ∧ Controller.brightness_get ⟨⟨['4', '2'], 0⟩, 0⟩
        = Except.error PyError.zeroDivisionError :=
  C10_zero_maximum ['4', '2'] 0 42 (by decide)

/-! ### C1: the sweep trace -/

/-- C1: for `steps ≥ 2`, a sweep from the single captured `current` writes
`current + (target - current) * step / steps` for `step = 1 .. steps-1`,
suspends for `delay / steps` milliseconds (i.e. `(delay / steps) / 1000`
seconds, the unit of `time.sleep`) after each write, and after that loop
performs one unconditional final write of exactly `target` (also followed
by one last suspension, as the sleep sits inside the consuming loop).  The
write sequence is a pure function of the `current` captured at sweep start:
no device read occurs during the sweep. -/
theorem C1_sweep_trace (current target : ℚ) (steps : ℤ) (delay : ℚ) (h : 2 ≤ steps) :
    sweep_brightness current target steps delay
      = ((pyRange 1 steps).flatMap fun step =>
          [SweepEvent.write (current + (target - current) * (step : ℚ) / (steps : ℚ)),
           SweepEvent.sleep (delay / (steps : ℚ) / 1000)])
        ++ [SweepEvent.write target, SweepEvent.sleep (delay / (steps : ℚ) / 1000)] := by
  have hs : delay / 1000 / (steps : ℚ) = delay / (steps : ℚ) / 1000 := div_right_comm _ _ _
  simp only [sweep_brightness, generate_brightness_steps, hs]
  rw [List.flatMap_append]
  congr 1
  exact List.flatMap_map _ _ _

/-- C1 witness (the spec's own scenario): `current = 50`, `target = 75`,
`steps = 5`, `delay = 500` ms gives writes at 55, 60, 65, 70, then 75,
with 0.1 s slept after each. -/
theorem C1_sweep_trace_witness :
    sweep_brightness 50 75 5 500
      = [SweepEvent.write 55, SweepEvent.sleep (1 / 10),
         SweepEvent.write 60, SweepEvent.sleep (1 / 10),
         SweepEvent.write 65, SweepEvent.sleep (1 / 10),
         SweepEvent.write 70, SweepEvent.sleep (1 / 10),
         SweepEvent.write 75, SweepEvent.sleep (1 / 10)] := by
  rw [C1_sweep_trace 50 75 5 500 (by norm_num)]
  rw [show pyRange 1 5 = [1, 2, 3, 4] by decide]
  simp only [List.flatMap_cons, List.flatMap_nil, List.append_nil, List.cons_append,
    List.nil_append]
  norm_num

/-! ### C2: the policy gate -/

/-- C2: given the controller's current percentage and the (normalized)
target, the gate performs no write and no sleep when they are equal;
otherwise, when `steps ≤ 1` or `time < 1` ms, exactly one direct write of
`target` with no sleeping; only otherwise does it invoke the stepwise
sweep. -/
theorem C2_policy_gate (current target : ℚ) (steps time : ℤ) :
    (current = target → apply_brightness_action current target steps time = [])
    ∧ (current ≠ target → steps ≤ 1 ∨ time < 1 →
        apply_brightness_action current target steps time = [SweepEvent.write target])
    ∧ (current ≠ target → 1 < steps → 1 ≤ time →
        apply_brightness_action current target steps time
          = sweep_brightness current target steps (time : ℚ)) := by
  unfold apply_brightness_action
  refine ⟨fun h1 => ?_, fun h1 h2 => ?_, fun h1 h2 h3 => ?_⟩
  · rw [if_pos h1]
  · rw [if_neg h1, if_pos h2]
  · rw [if_neg h1, if_neg (by omega)]

/-- C2 witness: equal current and target yields the empty trace;
`steps = 1` yields the single direct write; `steps = 5`, `time = 500`
defers to the sweep. -/
theorem C2_policy_gate_witness :
    apply_brightness_action 50 50 5 500 = []
    ∧ apply_brightness_action 50 75 1 500 = [SweepEvent.write 75]
    ∧ apply_brightness_action 50 75 5 500 = sweep_brightness 50 75 5 ((500 : ℤ) : ℚ) :=
  ⟨(C2_policy_gate 50 50 5 500).1 rfl,
   (C2_policy_gate 50 75 1 500).2.1 (by norm_num) (Or.inl (by norm_num)),
   (C2_policy_gate 50 75 5 500).2.2 (by norm_num) (by norm_num) (by norm_num)⟩

/-! ### C5: discovery and absent base locations -/

/-- A directory environment whose first base location is absent while the
second exists and holds one controller. -/
def absentFirstListing : String → Option (List String) := fun path =>
  if path = "/sys/class/leds" then some ["led0"] else none

theorem list_controller_entries_all_empty (listdir : String → Option (List String))
    (paths : List String) (acc : List (String × String))
    (h : ∀ p ∈ paths, listdir p = some []) :
    list_controller_entries listdir paths acc = Except.ok acc := by
  induction paths generalizing acc with
  | nil => rfl
  | cons path rest ih =>
    simp only [list_controller_entries]
    rw [h path (List.mem_cons_self path rest)]
    exact ih acc (fun p hp => h p (List.mem_cons_of_mem _ hp))

theorem list_controller_entries_absent (listdir : String → Option (List String))
    (paths : List String) (acc : List (String × String))
    (h : ∃ p ∈ paths, listdir p = none) :
    list_controller_entries listdir paths acc = Except.error PyError.ioError := by
  induction paths generalizing acc with
  | nil => simp at h
  | cons path rest ih =>
    simp only [list_controller_entries]
    obtain ⟨p, hp, hnone⟩ := h
    rcases List.mem_cons.mp hp with rfl | hmem
    · rw [hnone]
    · cases hl : listdir path with
      | none => rfl
      | some names => exact ih _ ⟨p, hmem, hnone⟩

/-- C5 counterexample: with the first base location absent and the second
containing `led0`, discovery raises (`os.listdir` on an absent path) —
it neither skips the absent location nor returns the remaining entries,
contradicting the claim. -/
theorem C5_counterexample :
    get_controllers absentFirstListing = Except.error PyError.ioError
    ∧ get_controllers absentFirstListing
        ≠ Except.ok [(("led0" : String), ("/sys/class/leds/led0" : String))] := by
  constructor <;> decide

/-- C5 (amended): discovery returns the empty mapping when every base
location exists but contains no entries; when any base location is absent,
discovery fails with an I/O error instead of skipping it. -/
theorem C5_discovery (listdir : String → Option (List String)) :
    ((∀ p ∈ CONTROLLERS_PATH, listdir p = some []) →
      get_controllers listdir = Except.ok [])
    ∧ ((∃ p ∈ CONTROLLERS_PATH, listdir p = none) →
      get_controllers listdir = Except.error PyError.ioError) :=
  ⟨fun h => list_controller_entries_all_empty listdir CONTROLLERS_PATH [] h,
   fun h => list_controller_entries_absent listdir CONTROLLERS_PATH [] h⟩

/-- C5 witness: both-present-but-empty yields the empty mapping; an absent
first location yields the I/O error. -/
theorem C5_discovery_witness :
    get_controllers (fun _ => some []) = Except.ok []
    ∧ get_controllers absentFirstListing = Except.error PyError.ioError :=
  ⟨(C5_discovery (fun _ => some [])).1 (fun _ _ => rfl),
   (C5_discovery absentFirstListing).2 ⟨"/sys/class/backlight", by decide, by decide⟩⟩

/-! ### C7: step-count derivation from the frame rate -/

/-- C7 counterexample: `fps = 1`, `time = 500` ms derives
`int((1/1000)*500) = int(0.5) = 0`; the derived value is zero, so by the
claim an explicit `steps = 5` should be retained, but the code replaces it
with `0` (the gate is `if arguments.fps:`, i.e. `fps ≠ 0`, not a test of
the derived value). -/
theorem C7_counterexample :
    derive_steps 1 500 5 = 0 ∧ derive_steps 1 500 5 ≠ 5 := by
  have h1 : derive_steps 1 500 5 = pytrunc (((1 : ℤ) : ℚ) / 1000 * ((500 : ℤ) : ℚ)) := by
    unfold derive_steps
    rw [if_pos (by decide)]
  have h3 : derive_steps 1 500 5 = 0 := by
    rw [h1, show (((1 : ℤ) : ℚ) / 1000 * ((500 : ℤ) : ℚ)) = 1 / 2 by push_cast; norm_num,
      pytrunc_of_nonneg _ (by norm_num)]
    norm_num
  exact ⟨h3, by rw [h3]; decide⟩

/-- C7 (amended): the derived step count is `trunc(fps * time / 1000)` —
which equals `floor(fps * time / 1000)` whenever `fps * time ≥ 0` — and it
supersedes any explicitly supplied step count exactly when `fps` is
non-zero, even when the derived value is zero. -/
theorem C7_step_derivation (fps time steps : ℤ) :
    (fps ≠ 0 → derive_steps fps time steps = pytrunc ((fps : ℚ) * (time : ℚ) / 1000))
    ∧ (fps = 0 → derive_steps fps time steps = steps)
    ∧ (0 ≤ (fps : ℚ) * (time : ℚ) / 1000 →
        pytrunc ((fps : ℚ) * (time : ℚ) / 1000)
          = ⌊(fps : ℚ) * (time : ℚ) / 1000⌋) := by
  refine ⟨fun h => ?_, fun h => ?_, fun h => pytrunc_of_nonneg _ h⟩
  · unfold derive_steps
    rw [if_pos h]
    congr 1
    ring
  · unfold derive_steps
    rw [if_neg (by omega)]

/-- C7 witness: `fps = 30`, `time = 200` ms derives `6` steps and
supersedes an explicit `7`; `fps = 0` keeps the explicit `7`. -/
theorem C7_step_derivation_witness :
    derive_steps 30 200 7 = pytrunc (((30 : ℤ) : ℚ) * ((200 : ℤ) : ℚ) / 1000)
    ∧ derive_steps 0 200 7 = 7
    ∧ pytrunc (((30 : ℤ) : ℚ) * ((200 : ℤ) : ℚ) / 1000)
        = ⌊((30 : ℤ) : ℚ) * ((200 : ℤ) : ℚ) / 1000⌋ :=
  ⟨(C7_step_derivation 30 200 7).1 (by norm_num),
   (C7_step_derivation 0 200 7).2.1 rfl,
   (C7_step_derivation 30 200 7).2.2 (by positivity)⟩

/-! ### C8: controller-name resolution -/

/-- A directory environment with a single controller `video0` under the
first base location. -/
def singleControllerListing : String → Option (List String) := fun path =>
  if path = "/sys/class/backlight" then some ["video0"] else some []

/-- C8: when discovery succeeded, a provided name that matches none of the
discovered controllers (the membership test is against the discovered
paths) makes resolution fail with the "no such controller" exit, opening
no device file; a null name resolves to the first entry in discovery
order, opening exactly its two device files. -/
theorem C8_resolution (listdir : String → Option (List String))
    (cs : List (String × String)) (n : String) (c : String × String)
    (rest : List (String × String))
    (hdisc : get_controllers listdir = Except.ok cs) :
    (n ∉ odValues cs →
      make_controller listdir (some n) = ([], Except.error MCError.sysExit))
    ∧ (cs = c :: rest →
      make_controller listdir none
        = ([pathJoin c.2 MAXIMUM_BRIGHTNESS_FILE, pathJoin c.2 BRIGHTNESS_FILE],
           Except.ok c.2)) := by
  have hm : ∀ name, make_controller listdir name = resolve_controller cs name := by
    intro name
    unfold make_controller
    rw [hdisc]
  constructor
  · intro hn
    rw [hm (some n)]
    simp only [resolve_controller]
    rw [if_neg hn]
  · rintro rfl
    rw [hm none]
    simp only [resolve_controller, resolve_default, odValues, List.map_cons]
    rfl

/-- C8 witness: one discovered controller `video0`; the unknown name
`nosuch` exits with no device file opened; the null name opens `video0`'s
two device files. -/
theorem C8_resolution_witness :
    make_controller singleControllerListing (some ("nosuch"))
      = ([], Except.error MCError.sysExit)
    ∧ make_controller singleControllerListing none
      = ([pathJoin ("/sys/class/backlight/video0") MAXIMUM_BRIGHTNESS_FILE,
          pathJoin ("/sys/class/backlight/video0") BRIGHTNESS_FILE],
         Except.ok ("/sys/class/backlight/video0")) := by
  have hdisc : get_controllers singleControllerListing
      = Except.ok [(("video0" : String), ("/sys/class/backlight/video0" : String))] := by
    decide
  exact ⟨(C8_resolution singleControllerListing _ "nosuch"
      (("video0" : String), ("/sys/class/backlight/video0" : String)) [] hdisc).1 (by decide),
    (C8_resolution singleControllerListing _ "nosuch"
      (("video0" : String), ("/sys/class/backlight/video0" : String)) [] hdisc).2 rfl⟩

end Acpilight
